import Mathlib

/-!
Shallow embedding of `edge.py` (BloxburgAutoFish): the region calibrator
(`clamp_region`, threshold adjustment, corner validation, point acquisition),
the multimethod Enter-key injection, and the scanner trigger loop.
All definitions are translated from the source; times and edge ratios are
modelled as rationals, screen coordinates as integers.
-/

namespace EdgePy

/-! ### Monitor bounds and `clamp_region` (edge.py lines 155-160) -/

/-- An mss monitor dict with the fields left, top, width and height. -/
structure Monitor where
  left : Int
  top : Int
  width : Int
  height : Int
  deriving DecidableEq, Repr

/-- Function `clamp_region` from edge.py lines 155-160:
clamps the top-left corner into `[left, left+width-2] x [top, top+height-2]`
and the bottom-right corner into `[x1+1, left+width-1] x [y1+1, top+height-1]`. -/
def clamp_region (x1 y1 x2 y2 : Int) (mon : Monitor) : Int × Int × Int × Int :=
  let x1c := max mon.left (min x1 (mon.left + mon.width - 2))
  let y1c := max mon.top (min y1 (mon.top + mon.height - 2))
  let x2c := max (x1c + 1) (min x2 (mon.left + mon.width - 1))
  let y2c := max (y1c + 1) (min y2 (mon.top + mon.height - 1))
  (x1c, y1c, x2c, y2c)

/-! ### Canny threshold adjustment (edge.py lines 248-251)

In `live_tuner`, the `[`/`]` keys move `lo` by `max(0, lo-1)` / `min(255, lo+1)`
and `{`/`}` do the same for `hi`. -/

/-- One calibration keystroke on a threshold: decrement (`[` or `{`) or
increment (`]` or `}`). -/
inductive ThresholdCmd where
  | dec
  | inc
  deriving DecidableEq, Repr

/-- Effect of one threshold keystroke, from edge.py lines 248-251:
`lo = max(0, lo - 1)` on decrement and `lo = min(255, lo + 1)` on increment
(identically for `hi`). -/
def adjust_threshold (v : Int) : ThresholdCmd → Int
  | .dec => max 0 (v - 1)
  | .inc => min 255 (v + 1)

/-- A finite sequence of threshold keystrokes applied left to right. -/
def adjust_thresholds (v : Int) (cs : List ThresholdCmd) : Int :=
  cs.foldl adjust_threshold v

/-! ### Multimethod Enter injection (edge.py lines 55-87)

`press_enter_multimethod_once` runs three `try: … except Exception: pass`
blocks in sequence: `pyautogui.press("enter")` (UI automation),
`keyboard.send("enter")` (global key-send; the `import keyboard` may itself
raise), and `sendinput_enter_once()` (synthetic scancode via SendInput).
Each block sets `ok = True` only when its mechanism did not raise. -/

/-- The three injection mechanisms, in source order. -/
inductive Mech where
  | uia
  | keysend
  | scancode
  deriving DecidableEq, Repr

/-- Environment for one call of `press_enter_multimethod_once`: the outcome
of each mechanism, `.ok ()` if the call returns and `.error ()` if it raises. -/
structure InjectEnv where
  attempt : Mech → Except Unit Unit

/-- One `try: <mechanism>; ok = True except Exception: pass` block: on
success `ok` becomes `True`, on an exception `ok` keeps its prior value and
the exception is swallowed. -/
def try_mech (ok : Bool) (outcome : Except Unit Unit) : Bool :=
  match outcome with
  | .ok _ => true
  | .error _ => ok

/-- Model of `press_enter_multimethod_once` from edge.py lines 55-70, instrumented
with the list of mechanisms attempted (in order): starts with `ok = False`,
runs the three try blocks in source order, returns `ok`. The function is
total: no exception escapes it. -/
def press_enter_multimethod_once (env : InjectEnv) : List Mech × Bool :=
  let ok := false
  let tried := ([] : List Mech)
  let tried := tried ++ [Mech.uia]
  let ok := try_mech ok (env.attempt .uia)
  let tried := tried ++ [Mech.keysend]
  let ok := try_mech ok (env.attempt .keysend)
  let tried := tried ++ [Mech.scancode]
  let ok := try_mech ok (env.attempt .scancode)
  (tried, ok)

/-- The boolean result of one multimethod press. -/
def press_once_ok (env : InjectEnv) : Bool :=
  (press_enter_multimethod_once env).2

/-- Observable steps of the double-confirm action. -/
inductive ConfirmEvent where
  | pressOnce (ok : Bool)
  | sleepSeconds (s : ℚ)
  deriving DecidableEq

/-- Model of `press_enter_double_multimethod_logged` from edge.py lines 72-81:
press once, `time.sleep(2.0)`, press once more; returns `e1 and e2`.
Instrumented with the sequence of press/sleep events. -/
def press_enter_double_multimethod_logged (env1 env2 : InjectEnv) :
    List ConfirmEvent × Bool :=
  let e1 := press_once_ok env1
  let e2 := press_once_ok env2
  ([.pressOnce e1, .sleepSeconds 2, .pressOnce e2], e1 && e2)

/-- Whether a confirm event is a key press. -/
def ConfirmEvent.isPress : ConfirmEvent → Bool
  | .pressOnce _ => true
  | .sleepSeconds _ => false

/-! ### Corner validation (edge.py lines 193-196)

`live_tuner` acquires the two corner points and immediately checks
`if x2 <= x1 or y2 <= y1: raise SystemExit(...)` before creating the capture
context or entering the interactive loop. -/

/-- The corner-validation step of `live_tuner`: `SystemExit` (modelled as
`Except.error`) when the bottom-right point is not strictly below-and-right
of the top-left point, otherwise the validated points. -/
def validate_corners (x1 y1 x2 y2 : Int) :
    Except String (Int × Int × Int × Int) :=
  if x2 ≤ x1 ∨ y2 ≤ y1 then
    .error "Invalid region. LT must be above/left of BR."
  else
    .ok (x1, y1, x2, y2)

/-! ### Point acquisition `wait_for_enter` (edge.py lines 101-153)

The docstring (lines 104-105) promises three fallbacks:
"Tries: global keyboard hook -> tiny cv2 window -> console input()."
The body implements only the first two: a `try: import keyboard;
keyboard.wait("enter") … except Exception: pass` block, then an OpenCV
prompt window polled with `cv2.waitKey`; Enter returns the pointer
position, Esc/Q raises `KeyboardInterrupt`, and any other exception from
the window path propagates — there is no console `input()` fallback. -/

/-- Outcome of the OpenCV prompt-window path: operator pressed Enter at a
pointer position, operator pressed the cancel key, or the GUI raised
(e.g. no display available). -/
inductive WindowOutcome where
  | enter (x y : Int)
  | cancel
  | raised
  deriving DecidableEq, Repr

/-- Environment for one `wait_for_enter` call: the outcome of the global
keyboard hook (`.ok (x, y)` when `keyboard.wait("enter")` succeeds and the
pointer is at `(x, y)`; `.error ()` when the import or wait raises) and the
outcome of the prompt-window path. -/
structure AcquireEnv where
  hook : Except Unit (Int × Int)
  window : WindowOutcome

/-- Result of `wait_for_enter`: a recorded point, a `KeyboardInterrupt`
(operator cancel), or an unhandled propagated exception. -/
inductive AcquireResult where
  | point (x y : Int)
  | cancelled
  | propagated
  deriving DecidableEq, Repr

/-- Model of `wait_for_enter` from edge.py lines 101-153: try the global hook; on
any exception fall through to the prompt window, where Enter yields the
pointer position, Esc/Q raises `KeyboardInterrupt`, and a GUI failure
propagates. No third (console input) method exists in the body, contrary
to the docstring of the function itself. -/
def wait_for_enter (env : AcquireEnv) : AcquireResult :=
  match env.hook with
  | .ok (x, y) => .point x y
  | .error _ =>
    match env.window with
    | .enter x y => .point x y
    | .cancel => .cancelled
    | .raised => .propagated

/-! ### Scanner trigger loop (edge.py lines 263-313)

Each tick computes `edge_ratio`, samples `now = time.time()`, then:
`if edge_ratio > 0.0 and (now - last_trigger_t) >= cooldown`, fire the
double-Enter action and set `last_trigger_t = time.time()` (a fresh sample
taken after the action, which includes a 2 s sleep);
`elif (now - last_trigger_t) >= idle_timeout`, fire the single Enter and
set `last_trigger_t = time.time()`; otherwise leave the state alone. -/

/-- Constant `cooldown = 0.40` from edge.py line 277. -/
def cooldown : ℚ := 2/5

/-- Constant `idle_timeout = 25.0` from edge.py line 278. -/
def idle_timeout : ℚ := 25

/-- The action fired by one scanner tick. -/
inductive ScanAction where
  | double
  | single
  | idle_none
  deriving DecidableEq, Repr

/-- Inputs observed by one scanner tick: the computed edge ratio, the
timestamp `now` sampled before the branch, and the timestamp
`time.time()` that would be sampled right after an action completes. -/
structure TickInput where
  edgeRatio : ℚ
  now : ℚ
  tAfter : ℚ
  deriving DecidableEq, Repr

/-- One iteration of the scanner loop body (edge.py lines 294-311), as a
function of the last-trigger timestamp: returns the fired action and the
new timestamp. -/
def scannerTick (last : ℚ) (i : TickInput) : ScanAction × ℚ :=
  if i.edgeRatio > 0 ∧ i.now - last ≥ cooldown then
    (.double, i.tAfter)
  else if i.now - last ≥ idle_timeout then
    (.single, i.tAfter)
  else
    (.idle_none, last)

end EdgePy

namespace EdgePy

/-! ### Theorems about `clamp_region` -/

/-- Claim C3: for every region with `x2 > x1`, `y2 > y1` and every monitor with
`width ≥ 1`, `height ≥ 1`, `clamp_region` returns a region contained in
`[left, left+width) x [top, top+height)` (right/bottom exclusive) whose
width and height are at least 1. -/
theorem clamp_region_contained (x1 y1 x2 y2 : Int) (mon : Monitor)
    (hx : x1 < x2) (hy : y1 < y2) (hW : 1 ≤ mon.width) (hH : 1 ≤ mon.height) :
    mon.left ≤ (clamp_region x1 y1 x2 y2 mon).1 ∧
    mon.top ≤ (clamp_region x1 y1 x2 y2 mon).2.1 ∧
    (clamp_region x1 y1 x2 y2 mon).2.2.1 ≤ mon.left + mon.width ∧
    (clamp_region x1 y1 x2 y2 mon).2.2.2 ≤ mon.top + mon.height ∧
    (clamp_region x1 y1 x2 y2 mon).1 + 1 ≤ (clamp_region x1 y1 x2 y2 mon).2.2.1 ∧
    (clamp_region x1 y1 x2 y2 mon).2.1 + 1 ≤ (clamp_region x1 y1 x2 y2 mon).2.2.2 := by
  simp only [clamp_region]
  omega

/-- Witness for C3 at the concrete region (7,-3)-(40,40) on a 20x10 monitor
at (0,0). -/
theorem clamp_region_contained_witness :
    (7 : Int) < 40 ∧ (-3 : Int) < 40 ∧ (1 : Int) ≤ 20 ∧ (1 : Int) ≤ 10 ∧
    ((0 : Int) ≤ (clamp_region 7 (-3) 40 40 ⟨0, 0, 20, 10⟩).1 ∧
     (0 : Int) ≤ (clamp_region 7 (-3) 40 40 ⟨0, 0, 20, 10⟩).2.1 ∧
     (clamp_region 7 (-3) 40 40 ⟨0, 0, 20, 10⟩).2.2.1 ≤ 0 + 20 ∧
     (clamp_region 7 (-3) 40 40 ⟨0, 0, 20, 10⟩).2.2.2 ≤ 0 + 10 ∧
     (clamp_region 7 (-3) 40 40 ⟨0, 0, 20, 10⟩).1 + 1 ≤
       (clamp_region 7 (-3) 40 40 ⟨0, 0, 20, 10⟩).2.2.1 ∧
     (clamp_region 7 (-3) 40 40 ⟨0, 0, 20, 10⟩).2.1 + 1 ≤
       (clamp_region 7 (-3) 40 40 ⟨0, 0, 20, 10⟩).2.2.2) :=
  ⟨by decide, by decide, by decide, by decide,
   clamp_region_contained 7 (-3) 40 40 ⟨0, 0, 20, 10⟩
     (by decide) (by decide) (by decide) (by decide)⟩

/-- Claim C10: the function `clamp_region` is idempotent on monitors of width and height at
least 2: re-clamping its output returns the output unchanged. -/
theorem clamp_region_idempotent (x1 y1 x2 y2 : Int) (mon : Monitor)
    (hW : 2 ≤ mon.width) (hH : 2 ≤ mon.height) :
    clamp_region (clamp_region x1 y1 x2 y2 mon).1
      (clamp_region x1 y1 x2 y2 mon).2.1
      (clamp_region x1 y1 x2 y2 mon).2.2.1
      (clamp_region x1 y1 x2 y2 mon).2.2.2 mon =
      clamp_region x1 y1 x2 y2 mon := by
  simp only [clamp_region, Prod.mk.injEq]
  omega

/-- Witness for C10 at the concrete region (7,-3)-(40,40) on a 20x10 monitor
at (5,5). -/
theorem clamp_region_idempotent_witness :
    (2 : Int) ≤ 20 ∧ (2 : Int) ≤ 10 ∧
    clamp_region (clamp_region 7 (-3) 40 40 ⟨5, 5, 20, 10⟩).1
      (clamp_region 7 (-3) 40 40 ⟨5, 5, 20, 10⟩).2.1
      (clamp_region 7 (-3) 40 40 ⟨5, 5, 20, 10⟩).2.2.1
      (clamp_region 7 (-3) 40 40 ⟨5, 5, 20, 10⟩).2.2.2 ⟨5, 5, 20, 10⟩ =
      clamp_region 7 (-3) 40 40 ⟨5, 5, 20, 10⟩ :=
  ⟨by decide, by decide,
   clamp_region_idempotent 7 (-3) 40 40 ⟨5, 5, 20, 10⟩ (by decide) (by decide)⟩

/-! ### Theorems about threshold adjustment -/

/-- Counterexample for C4: the claim quantifies over every starting integer,
including command-line values outside `[0,255]`; starting from `lo = 300`
(accepted by `--canny-lo`, which is a bare `int`), a single decrement gives
`max(0, 299) = 299`, which is not in `[0,255]`. -/
theorem adjust_thresholds_escapes_range :
    adjust_thresholds 300 [ThresholdCmd.dec] = 299 ∧
    ¬(0 ≤ adjust_thresholds 300 [ThresholdCmd.dec] ∧
      adjust_thresholds 300 [ThresholdCmd.dec] ≤ 255) := by
  constructor
  · rfl
  · decide

/-- Amended claim C4: for every starting value already in `[0,255]` and every
finite sequence of increment/decrement keystrokes, the threshold stays in
`[0,255]`, saturating (not wrapping) at the bounds. -/
theorem adjust_thresholds_in_range (v : Int) (cs : List ThresholdCmd)
    (h0 : 0 ≤ v) (h255 : v ≤ 255) :
    0 ≤ adjust_thresholds v cs ∧ adjust_thresholds v cs ≤ 255 := by
  induction cs generalizing v with
  | nil => exact ⟨h0, h255⟩
  | cons c cs ih =>
      have hstep : 0 ≤ adjust_threshold v c ∧ adjust_threshold v c ≤ 255 := by
        cases c <;> simp only [adjust_threshold] <;> omega
      exact ih (adjust_threshold v c) hstep.1 hstep.2

/-- Witness for the amended C4 at `v = 0` with the keystroke sequence
dec, dec, inc: the decrement saturates at 0 and the result stays in range. -/
theorem adjust_thresholds_in_range_witness :
    (0 : Int) ≤ 0 ∧ (0 : Int) ≤ 255 ∧
    (0 ≤ adjust_thresholds 0 [ThresholdCmd.dec, ThresholdCmd.dec, ThresholdCmd.inc] ∧
     adjust_thresholds 0 [ThresholdCmd.dec, ThresholdCmd.dec, ThresholdCmd.inc] ≤ 255) :=
  ⟨by decide, by decide,
   adjust_thresholds_in_range 0 [ThresholdCmd.dec, ThresholdCmd.dec, ThresholdCmd.inc]
     (by decide) (by decide)⟩

/-! ### Theorems about the multimethod key injection -/

/-- Whether one injection mechanism outcome is a success. -/
def mech_succeeded (o : Except Unit Unit) : Bool :=
  match o with
  | .ok _ => true
  | .error _ => false

/-- Claim C5: a single multimethod key press attempts all three injection
mechanisms in source order (UI automation, global key-send, synthetic
scancode); a raising mechanism never stops the later attempts and no
exception leaves the function (it is total, returning a pair); the boolean
result is true iff at least one mechanism succeeded. -/
theorem press_once_attempts_all_or_results (env : InjectEnv) :
    (press_enter_multimethod_once env).1 = [Mech.uia, Mech.keysend, Mech.scancode] ∧
    (press_enter_multimethod_once env).2 =
      (mech_succeeded (env.attempt .uia) || mech_succeeded (env.attempt .keysend) ||
        mech_succeeded (env.attempt .scancode)) := by
  refine ⟨rfl, ?_⟩
  simp only [press_enter_multimethod_once, try_mech, mech_succeeded]
  cases env.attempt .uia <;> cases env.attempt .keysend <;>
    cases env.attempt .scancode <;> rfl

/-- Claim C6: the double-confirm action performs exactly two single key
presses, with the only event between them a fixed two-second sleep, and its
result is true iff both presses succeeded. -/
theorem double_confirm_two_presses_and_conjunction (env1 env2 : InjectEnv) :
    ((press_enter_double_multimethod_logged env1 env2).1.filter
      ConfirmEvent.isPress).length = 2 ∧
    (press_enter_double_multimethod_logged env1 env2).1 =
      [ConfirmEvent.pressOnce (press_once_ok env1), ConfirmEvent.sleepSeconds 2,
       ConfirmEvent.pressOnce (press_once_ok env2)] ∧
    ((press_enter_double_multimethod_logged env1 env2).2 = true ↔
      press_once_ok env1 = true ∧ press_once_ok env2 = true) := by
  refine ⟨rfl, rfl, ?_⟩
  simp [press_enter_double_multimethod_logged, Bool.and_eq_true]

/-! ### Theorems about corner validation and point acquisition -/

/-- Claim C7: corner validation aborts with a fatal error exactly when the
second point is not strictly below-and-right of the first, and otherwise
returns the validated corners so calibration proceeds. -/
theorem validate_corners_fatal_iff (x1 y1 x2 y2 : Int) :
    ((∃ e, validate_corners x1 y1 x2 y2 = Except.error e) ↔ (x2 ≤ x1 ∨ y2 ≤ y1)) ∧
    ((validate_corners x1 y1 x2 y2 = Except.ok (x1, y1, x2, y2)) ↔
      (x1 < x2 ∧ y1 < y2)) := by
  by_cases h : x2 ≤ x1 ∨ y2 ≤ y1
  · simp only [validate_corners]
    rw [if_pos h]
    refine ⟨⟨fun _ => h, fun _ => ⟨_, rfl⟩⟩, ?_⟩
    constructor
    · intro he
      exact Except.noConfusion he
    · intro hlt
      exfalso
      rcases h with h | h
      · exact absurd hlt.1 (not_lt.mpr h)
      · exact absurd hlt.2 (not_lt.mpr h)
  · simp only [validate_corners]
    rw [if_neg h]
    refine ⟨⟨?_, fun hc => absurd hc h⟩, ?_⟩
    · rintro ⟨e, he⟩
      exact Except.noConfusion he
    · constructor
      · intro _
        push_neg at h
        exact ⟨h.1, h.2⟩
      · intro _
        rfl

/-- Claim C8 failing input: with the global keyboard hook unavailable
(its try block raises) and the prompt window also failing (the GUI
raises), `wait_for_enter` propagates the exception instead of falling back
to the console `input()` prompt promised by its own docstring — the third
acquisition method does not exist in the code. -/
theorem wait_for_enter_no_console_fallback :
    wait_for_enter ⟨Except.error (), WindowOutcome.raised⟩ =
      AcquireResult.propagated := rfl

/-! ### Theorems about the scanner trigger loop -/

/-- Claim C1 (debounce): if a tick fires the double-confirm and the next
tick also sees nonzero edge density but comes less than `cooldown` seconds
after the recorded action time, the second tick fires nothing, so exactly
one double-confirm is fired across the two ticks. -/
theorem scanner_debounce (last0 : ℚ) (i1 i2 : TickInput)
    (h2e : i2.edgeRatio > 0)
    (hfire : (scannerTick last0 i1).1 = ScanAction.double)
    (hgap : i2.now - (scannerTick last0 i1).2 < cooldown) :
    (scannerTick (scannerTick last0 i1).2 i2).1 = ScanAction.idle_none ∧
    ([(scannerTick last0 i1).1,
      (scannerTick (scannerTick last0 i1).2 i2).1].count ScanAction.double) = 1 := by
  have hcool_lt : cooldown < idle_timeout := by
    norm_num [cooldown, idle_timeout]
  set last1 := (scannerTick last0 i1).2 with hlast1
  have hnotfire : ¬(i2.edgeRatio > 0 ∧ i2.now - last1 ≥ cooldown) := by
    rintro ⟨-, hge⟩
    exact absurd hge (not_le.mpr hgap)
  have hnotidle : ¬(i2.now - last1 ≥ idle_timeout) := by
    intro hge
    linarith
  have hsecond : (scannerTick last1 i2).1 = ScanAction.idle_none := by
    simp only [scannerTick]
    rw [if_neg hnotfire, if_neg hnotidle]
  refine ⟨hsecond, ?_⟩
  rw [hfire, hsecond]
  rfl

/-- Witness for C1: from state 0, the tick with edge ratio 1 at time 1
fires the double-confirm and records time 3; the next tick with edge
ratio 1 at time 3 is inside the 0.40 s cooldown and fires nothing. -/
theorem scanner_debounce_witness :
    (1 : ℚ) > 0 ∧
    (scannerTick 0 ⟨1, 1, 3⟩).1 = ScanAction.double ∧
    (3 : ℚ) - (scannerTick 0 ⟨1, 1, 3⟩).2 < cooldown ∧
    ((scannerTick (scannerTick 0 ⟨1, 1, 3⟩).2 ⟨1, 3, 5⟩).1 = ScanAction.idle_none ∧
     ([(scannerTick 0 ⟨1, 1, 3⟩).1,
       (scannerTick (scannerTick 0 ⟨1, 1, 3⟩).2 ⟨1, 3, 5⟩).1].count ScanAction.double) = 1) :=
  ⟨by norm_num, by norm_num [scannerTick, cooldown, idle_timeout],
   by norm_num [scannerTick, cooldown, idle_timeout],
   scanner_debounce 0 ⟨1, 1, 3⟩ ⟨1, 3, 5⟩ (by norm_num)
     (by norm_num [scannerTick, cooldown, idle_timeout])
     (by norm_num [scannerTick, cooldown, idle_timeout])⟩

/-- Claim C2: on a tick with nonzero edge density whose elapsed time since
the last action is at least `idle_timeout` (hence at least `cooldown`,
since 0.40 ≤ 25), the positive trigger fires the double-confirm and the
idle branch does not fire: the two branches are mutually exclusive in a
tick, and the `if`/`elif` picks the positive one. -/
theorem scanner_positive_beats_idle (last : ℚ) (i : TickInput)
    (he : i.edgeRatio > 0) (hidle : i.now - last ≥ idle_timeout) :
    (scannerTick last i).1 = ScanAction.double ∧
    (scannerTick last i).1 ≠ ScanAction.single := by
  have hc : cooldown ≤ idle_timeout := by
    norm_num [cooldown, idle_timeout]
  have hcool : i.now - last ≥ cooldown := le_trans hc hidle
  have hfire : scannerTick last i = (ScanAction.double, i.tAfter) := by
    simp only [scannerTick]
    rw [if_pos ⟨he, hcool⟩]
  rw [hfire]
  exact ⟨rfl, by simp⟩

/-- Witness for C2: from state 0, a tick with edge ratio 1 at time 30
(elapsed 30 ≥ 25) fires the double-confirm, not the idle single press. -/
theorem scanner_positive_beats_idle_witness :
    (1 : ℚ) > 0 ∧ (30 : ℚ) - 0 ≥ idle_timeout ∧
    ((scannerTick 0 ⟨1, 30, 32⟩).1 = ScanAction.double ∧
     (scannerTick 0 ⟨1, 30, 32⟩).1 ≠ ScanAction.single) :=
  ⟨by norm_num, by norm_num [idle_timeout],
   scanner_positive_beats_idle 0 ⟨1, 30, 32⟩ (by norm_num)
     (by norm_num [idle_timeout])⟩

/-- Counterexample for C9: the claim says the positive trigger sets the
last-action timestamp to the value of `now` sampled at the top of the tick,
but the code re-samples `time.time()` after the double-confirm completes
(which includes a 2 s sleep): on a tick observing `now = 10` whose action
completes at time 12, the stored timestamp is 12, not 10. -/
theorem scannerTick_not_set_to_now :
    (scannerTick 0 ⟨1, 10, 12⟩).1 = ScanAction.double ∧
    (scannerTick 0 ⟨1, 10, 12⟩).2 = 12 ∧ (12 : ℚ) ≠ 10 := by
  refine ⟨?_, ?_, by norm_num⟩ <;> norm_num [scannerTick, cooldown]

/-- Amended claim C9: the last-action timestamp is left unchanged on a tick
where no action fires, and on a tick where either action fires it is set to
the timestamp freshly sampled after the action completes (`tAfter`), which
in general differs from the `now` from which elapsed was computed. -/
theorem scannerTick_state_update (last : ℚ) (i : TickInput) :
    (scannerTick last i).2 =
      (if (scannerTick last i).1 = ScanAction.idle_none then last else i.tAfter) := by
  simp only [scannerTick]
  split_ifs <;> simp_all

end EdgePy
